import Mathlib

/-
  Verification of the backend/vault.go module of digitalis-io/secrets-manager.

  The Go source is shallowly embedded: each Go function becomes a Lean
  definition over explicit inputs standing for the store responses the
  function consumes.  A Go panic (a failed interface type assertion) is
  modelled by the value `none` of an `Option` result type; a Go `error`
  value is modelled by the `VaultError` inductive.
-/

set_option maxHeartbeats 1000000

namespace SecretsManager

/-- A dynamically typed Go value, as held in a Go map from string to
interface.  `vnil` is the nil interface (also what a Go map lookup yields
for an absent key); `str` a string; `jsonNum` a json.Number carrying its
underlying text; `other` any other non-nil dynamic type. -/
inductive GoValue where
  | vnil : GoValue
  | str : String → GoValue
  | jsonNum : String → GoValue
  | other : GoValue
deriving DecidableEq, Repr

/-- The error values the module produces or passes through.  `storeErr`
is an opaque error from the vault API transport; `secretNotFound` models
errors.BackendSecretNotFoundError with its path and key fields;
`tokenNotRenewable` models errors.VaultTokenNotRenewableError;
`ttlDecodeError` the strconv error from json.Number.Int64. -/
inductive VaultError where
  | storeErr : String → VaultError
  | secretNotFound : String → String → VaultError
  | tokenNotRenewable : VaultError
  | ttlDecodeError : VaultError
deriving DecidableEq, Repr

/-- Go map read `m[k]` on a map modelled as an association list: the first
binding wins; an absent key yields the nil interface value. -/
def lookupGo (m : List (String × GoValue)) (k : String) : GoValue :=
  match m.find? (fun p => p.1 == k) with
  | some p => p.2
  | none => .vnil

/-- strconv.ParseInt with base 10 and 64-bit size, as called by
json.Number.Int64: an optional sign, then one or more decimal digits,
with the result required to fit in int64; anything else is a parse
error (`none`). -/
def parseInt64 (s : String) : Option Int :=
  let signSplit : Bool × List Char :=
    match s.data with
    | '-' :: rest => (true, rest)
    | '+' :: rest => (false, rest)
    | l => (false, l)
  let neg := signSplit.1
  let digits := signSplit.2
  if digits.isEmpty then none
  else if digits.all Char.isDigit then
    let n : Nat := digits.foldl (fun acc c => acc * 10 + (c.toNat - 48)) 0
    let v : Int := if neg then -(n : Int) else (n : Int)
    if -(2 ^ 63) ≤ v ∧ v < 2 ^ 63 then some v else none
  else none

/-- const defaultSecretKey = "data" (vault.go line 19). -/
def defaultSecretKey : String := "data"

/-- getTokenTTL (vault.go lines 88-97): reads token.Data at field "ttl",
type-asserts it to json.Number and converts to Int64.  In Go the type
assertion is unchecked, so a missing "ttl" field or a non-json.Number
value panics: modelled by `none`.  A json.Number that fails to parse
returns (-1, error); success returns (ttl, nil error). -/
def getTokenTTL (tokenData : List (String × GoValue)) : Option (Int × Option VaultError) :=
  match lookupGo tokenData "ttl" with
  | .jsonNum s =>
    match parseInt64 s with
    | some n => some (n, none)
    | none => some (-1, some .ttlDecodeError)
  | _ => none

/-- shouldRenewToken (vault.go lines 99-106): true when ttl is below the
configured maxTokenTTL threshold, false otherwise. -/
def shouldRenewToken (maxTokenTTL ttl : Int) : Bool :=
  if ttl < maxTokenTTL then true else false

/-- renewToken (vault.go lines 108-127).  Inputs: the result of the
renewability check token.TokenIsRenewable() (an error, or a boolean), and
the outcome the store would give to a RenewSelf call (some error message,
or none for success).  Output: the returned Go error, paired with whether
the RenewSelf network call was actually issued on that path. -/
def renewToken (renewableCheck : Except String Bool) (renewSelfResult : Option String) :
    Option VaultError × Bool :=
  match renewableCheck with
  | .error e => (some (.storeErr e), false)
  | .ok false => (some .tokenNotRenewable, false)
  | .ok true =>
    match renewSelfResult with
    | some e => (some (.storeErr e), true)
    | none => (none, true)

/-- The environment one tick of the startTokenRenewer loop runs against:
what getToken returns (an error, or the looked-up token's Data map), and
the renewability-check and RenewSelf outcomes renewToken would observe for
that token. -/
structure TickEnv where
  lookupResult : Except String (List (String × GoValue))
  renewableCheck : Except String Bool
  renewSelfResult : Option String
deriving Repr

/-- The observable outcome of one timer tick of the startTokenRenewer
loop body (vault.go lines 133-153). -/
inductive TickResult where
  | exitLookupFailure : TickResult
  | exitTTLDecodeFailure : TickResult
  | panicked : TickResult
  | exitHealthy : TickResult
  | renewFailed : TickResult
  | renewed : TickResult
deriving DecidableEq, Repr

/-- Store or token operations a tick can perform, in order:
the LookupSelf call in getToken, the TTL decode in getTokenTTL, the
renewability check in renewToken, and the RenewSelf call in renewToken. -/
inductive Op where
  | lookup : Op
  | ttlCheck : Op
  | renewabilityCheck : Op
  | renewCall : Op
deriving DecidableEq, Repr

/-- One tick of the startTokenRenewer loop (vault.go lines 133-153):
getToken error returns; getTokenTTL error returns (or panics); a healthy
ttl (shouldRenewToken false) returns; otherwise renewToken runs and the
loop continues whether it succeeded or failed. -/
def supervisorTick (maxTokenTTL : Int) (env : TickEnv) : TickResult :=
  match env.lookupResult with
  | .error _ => .exitLookupFailure
  | .ok tokenData =>
    match getTokenTTL tokenData with
    | none => .panicked
    | some (_, some _) => .exitTTLDecodeFailure
    | some (ttl, none) =>
      if shouldRenewToken maxTokenTTL ttl then
        match renewToken env.renewableCheck env.renewSelfResult with
        | (some _, _) => .renewFailed
        | (none, _) => .renewed
      else .exitHealthy

/-- Whether the for-loop in startTokenRenewer goes round again after a
tick with this outcome: only the two renewToken outcomes fall through to
the next iteration; every other outcome is a return (or a panic). -/
def continuesAfter : TickResult → Bool
  | .renewFailed => true
  | .renewed => true
  | _ => false

/-- The startTokenRenewer loop (vault.go lines 129-160) run against a
sequence of per-tick environments, recording each processed tick's
outcome; the loop stops at the first tick whose outcome returns. -/
def supervisorRun (maxTokenTTL : Int) : List TickEnv → List TickResult
  | [] => []
  | env :: rest =>
    let r := supervisorTick maxTokenTTL env
    if continuesAfter r then r :: supervisorRun maxTokenTTL rest
    else [r]

/-- The operations one tick performs, following the control flow of
vault.go lines 133-153 and renewToken. -/
def tickOps (maxTokenTTL : Int) (env : TickEnv) : List Op :=
  match env.lookupResult with
  | .error _ => [.lookup]
  | .ok tokenData =>
    match getTokenTTL tokenData with
    | none => [.lookup, .ttlCheck]
    | some (_, some _) => [.lookup, .ttlCheck]
    | some (ttl, none) =>
      if shouldRenewToken maxTokenTTL ttl then
        match env.renewableCheck with
        | .error _ => [.lookup, .ttlCheck, .renewabilityCheck]
        | .ok false => [.lookup, .ttlCheck, .renewabilityCheck]
        | .ok true => [.lookup, .ttlCheck, .renewabilityCheck, .renewCall]
      else [.lookup, .ttlCheck]

/-- All operations performed across a run of the startTokenRenewer loop. -/
def runOps (maxTokenTTL : Int) : List TickEnv → List Op
  | [] => []
  | env :: rest =>
    if continuesAfter (supervisorTick maxTokenTTL env) then
      tickOps maxTokenTTL env ++ runOps maxTokenTTL rest
    else tickOps maxTokenTTL env

/-- The raw outcome of logical.Read(path) as ReadSecret consumes it:
an error, a nil secret, or a secret from which the engine adapter
extracts either no payload (`none`) or a flat key-to-value map, together
with the warnings carried on the response. -/
inductive ReadOutcome where
  | readErr : String → ReadOutcome
  | nilSecret : ReadOutcome
  | secret : Option (List (String × GoValue)) → List String → ReadOutcome
deriving DecidableEq, Repr

/-- The key actually looked up by ReadSecret: an empty key is replaced by
defaultSecretKey (vault.go lines 164-166). -/
def effKey (key : String) : String :=
  if key = "" then defaultSecretKey else key

/-- ReadSecret (vault.go lines 162-197).  An empty key becomes
defaultSecretKey; a read error is returned with empty data; a nil secret,
a nil extracted payload, or a nil value at the key all yield the
BackendSecretNotFoundError; a string value at the key is returned with a
nil error.  The Go code converts the payload value with an unchecked
`.(string)` type assertion, so a non-nil non-string value panics:
modelled by `none`. -/
def ReadSecret (path key : String) (resp : ReadOutcome) : Option (String × Option VaultError) :=
  let k := effKey key
  match resp with
  | .readErr e => some ("", some (.storeErr e))
  | .nilSecret => some ("", some (.secretNotFound path k))
  | .secret payload _warnings =>
    match payload with
    | none => some ("", some (.secretNotFound path k))
    | some secretData =>
      match lookupGo secretData k with
      | .vnil => some ("", some (.secretNotFound path k))
      | .str s => some (s, none)
      | .jsonNum _ => none
      | .other => none

/-- Claim C5: for every threshold and every TTL value t, shouldRenewToken
returns true if and only if t is strictly below the threshold. -/
theorem claim_C5 (maxTokenTTL ttl : Int) :
    shouldRenewToken maxTokenTTL ttl = true ↔ ttl < maxTokenTTL := by
  simp [shouldRenewToken]

/-- Claim C6: when the renewability check reports false, renewToken
returns the TokenNotRenewable error and the RenewSelf call is never
issued on that path, whatever outcome the store would have given it. -/
theorem claim_C6 (renewSelfResult : Option String) :
    renewToken (.ok false) renewSelfResult = (some .tokenNotRenewable, false) := rfl

/-- Claim C7: for every path and every store response, reading with the
empty key returns exactly the same result as reading with the default
key "data". -/
theorem claim_C7 (path : String) (resp : ReadOutcome) :
    ReadSecret path "" resp = ReadSecret path defaultSecretKey resp := by
  have h : effKey "" = effKey defaultSecretKey := rfl
  unfold ReadSecret
  rw [h]

/-- Claim C4: ReadSecret returns the pair of empty string and the
SecretNotFound error exactly when the raw response is nil, or the engine
extracts no payload, or the extracted payload holds no non-nil value at
the effective key (a Go map lookup treats an absent key and a key bound
to nil identically); and in all three cases the error is the same
BackendSecretNotFoundError carrying the same path and effective key. -/
theorem claim_C4 (path key : String) (resp : ReadOutcome) :
    ReadSecret path key resp = some ("", some (.secretNotFound path (effKey key))) ↔
      (resp = .nilSecret
        ∨ (∃ w, resp = .secret none w)
        ∨ (∃ pd w, resp = .secret (some pd) w ∧ lookupGo pd (effKey key) = .vnil)) := by
  cases resp with
  | readErr e => simp [ReadSecret]
  | nilSecret => simp [ReadSecret]
  | secret payload w =>
    cases payload with
    | none => simp [ReadSecret]
    | some pd =>
      cases h : lookupGo pd (effKey key) <;> simp [ReadSecret, h]

/-- Claim C8: when the read succeeds and the extracted payload maps the
requested non-empty key to a string value, ReadSecret returns that
string with a nil error. -/
theorem claim_C8 (path key s : String) (pd : List (String × GoValue)) (w : List String)
    (hk : key ≠ "") (hs : lookupGo pd key = .str s) :
    ReadSecret path key (.secret (some pd) w) = some (s, none) := by
  have he : effKey key = key := by simp [effKey, hk]
  simp [ReadSecret, he, hs]

/-- Witness for claim C8: payload mapping "password" to "abc", read with
key "password", yields ("abc", nil error). -/
theorem claim_C8_witness :
    ReadSecret "secret/data/app" "password"
        (.secret (some [("password", GoValue.str "abc")]) []) =
      some ("abc", none) :=
  claim_C8 "secret/data/app" "password" "abc" [("password", GoValue.str "abc")] []
    (by decide) (by decide)

/-- A tick environment whose renewal attempt fails: the token lookup
succeeds with a TTL of 1 second, the token is renewable, and the
RenewSelf call fails with a transport error. -/
def envRenewFail : TickEnv :=
  { lookupResult := .ok [("ttl", .jsonNum "1")]
    renewableCheck := .ok true
    renewSelfResult := some "connection refused" }

/-- A tick environment whose token is healthy: the lookup succeeds with a
TTL of 3600 seconds, well above any small threshold. -/
def envHealthy : TickEnv :=
  { lookupResult := .ok [("ttl", .jsonNum "3600")]
    renewableCheck := .ok true
    renewSelfResult := none }

/-- Counterexample to claim C1: with threshold 300, a tick whose renewal
fails does not stop the loop.  The run over two tick environments
processes both ticks (the second performs a further token lookup and TTL
check), so after a failed renewal the loop does tick again, contrary to
the claim that it performs no further ticks or lookups. -/
theorem claim_C1_counterexample :
    supervisorTick 300 envRenewFail = .renewFailed ∧
      supervisorRun 300 [envRenewFail, envHealthy] = [.renewFailed, .exitHealthy] ∧
      runOps 300 [envRenewFail, envHealthy] =
        [.lookup, .ttlCheck, .renewabilityCheck, .renewCall, .lookup, .ttlCheck] := by
  decide

/-- Claim C1 as amended: whenever a tick's renewal attempt fails, the
loop logs the failure and continues: the remaining ticks are processed
exactly as they would be on their own, rather than the loop stopping. -/
theorem claim_C1_amended (maxTokenTTL : Int) (env : TickEnv) (rest : List TickEnv)
    (h : supervisorTick maxTokenTTL env = .renewFailed) :
    supervisorRun maxTokenTTL (env :: rest) =
        .renewFailed :: supervisorRun maxTokenTTL rest ∧
      runOps maxTokenTTL (env :: rest) =
        tickOps maxTokenTTL env ++ runOps maxTokenTTL rest := by
  refine ⟨?_, ?_⟩ <;> simp [supervisorRun, runOps, h, continuesAfter]

/-- Witness for the amended claim C1 at threshold 300 on the concrete
failing-renewal environment followed by one healthy environment. -/
theorem claim_C1_witness :
    supervisorRun 300 (envRenewFail :: [envHealthy]) =
        .renewFailed :: supervisorRun 300 [envHealthy] ∧
      runOps 300 (envRenewFail :: [envHealthy]) =
        tickOps 300 envRenewFail ++ runOps 300 [envHealthy] :=
  claim_C1_amended 300 envRenewFail [envHealthy] (by decide)

/-- Claim C2: on a tick where the looked-up TTL decodes successfully and
is at least the threshold, the loop returns immediately after that one
non-renewal outcome: the run ends at that tick whatever environments
follow, and the only operations of the whole run are that tick's token
lookup and TTL decode, with no renewal operations and no further store
calls. -/
theorem claim_C2 (maxTokenTTL : Int) (env : TickEnv) (rest : List TickEnv)
    (tokenData : List (String × GoValue)) (s : String) (t : Int)
    (hl : env.lookupResult = .ok tokenData)
    (ht : lookupGo tokenData "ttl" = .jsonNum s)
    (hp : parseInt64 s = some t)
    (hge : maxTokenTTL ≤ t) :
    supervisorRun maxTokenTTL (env :: rest) = [.exitHealthy] ∧
      runOps maxTokenTTL (env :: rest) = [.lookup, .ttlCheck] := by
  have hsr : shouldRenewToken maxTokenTTL t = false := by
    unfold shouldRenewToken
    rw [if_neg (not_lt.mpr hge)]
  have htick : supervisorTick maxTokenTTL env = .exitHealthy := by
    simp [supervisorTick, hl, getTokenTTL, ht, hp, hsr]
  refine ⟨?_, ?_⟩
  · simp [supervisorRun, htick, continuesAfter]
  · simp [runOps, htick, continuesAfter, tickOps, hl, getTokenTTL, ht, hp, hsr]

/-- Witness for claim C2: threshold 300 against a healthy token with TTL
3600, followed by a further environment that is never processed. -/
theorem claim_C2_witness :
    supervisorRun 300 (envHealthy :: [envRenewFail]) = [.exitHealthy] ∧
      runOps 300 (envHealthy :: [envRenewFail]) = [.lookup, .ttlCheck] :=
  claim_C2 300 envHealthy [envRenewFail] [("ttl", GoValue.jsonNum "3600")] "3600" 3600
    rfl rfl (by decide) (by decide)

/-- Claim C9: on a tick where the token lookup fails, the loop exits
after that tick: the run ends there whatever environments follow, and the
only operation of the whole run is that one lookup; no TTL check,
renewability check, or renewal call happens on that or any later tick. -/
theorem claim_C9 (maxTokenTTL : Int) (env : TickEnv) (rest : List TickEnv) (e : String)
    (hl : env.lookupResult = .error e) :
    supervisorRun maxTokenTTL (env :: rest) = [.exitLookupFailure] ∧
      runOps maxTokenTTL (env :: rest) = [.lookup] := by
  have htick : supervisorTick maxTokenTTL env = .exitLookupFailure := by
    simp [supervisorTick, hl]
  refine ⟨?_, ?_⟩
  · simp [supervisorRun, htick, continuesAfter]
  · simp [runOps, htick, continuesAfter, tickOps, hl]

/-- A tick environment whose token lookup fails with a transport error. -/
def envLookupFail : TickEnv :=
  { lookupResult := .error "connection reset"
    renewableCheck := .ok true
    renewSelfResult := none }

/-- Witness for claim C9: a failed lookup followed by a healthy
environment that is never reached. -/
theorem claim_C9_witness :
    supervisorRun 300 (envLookupFail :: [envHealthy]) = [.exitLookupFailure] ∧
      runOps 300 (envLookupFail :: [envHealthy]) = [.lookup] :=
  claim_C9 300 envLookupFail [envHealthy] "connection reset" rfl

/-- Counterexample to claim C3: getTokenTTL is not total.  The Go code
type-asserts token.Data at "ttl" to json.Number without an ok-check, so a
token response with no "ttl" field, or whose "ttl" field is a string
rather than a json.Number, makes the assertion panic (modelled by the
result `none`) instead of returning an error; so it is false that every
token response yields either an integer TTL or an error. -/
theorem claim_C3_counterexample :
    getTokenTTL [] = none ∧
      getTokenTTL [("ttl", GoValue.str "60")] = none ∧
      ¬ ∀ tokenData : List (String × GoValue), (getTokenTTL tokenData).isSome = true := by
  refine ⟨rfl, rfl, fun h => ?_⟩
  have := h []
  simp [getTokenTTL, lookupGo] at this

/-- A tick environment whose looked-up token carries a json.Number TTL
that does not parse as an integer. -/
def envBadTTL : TickEnv :=
  { lookupResult := .ok [("ttl", .jsonNum "soon")]
    renewableCheck := .ok true
    renewSelfResult := none }

/-- Claim C3 as amended: whenever the token response holds a json.Number
in its "ttl" field, getTokenTTL is total: it returns the parsed TTL with
a nil error, or, when the number does not parse as an integer, the pair
of -1 and the decode error; and in the latter case the loop exits after
the failed decode with no renewal attempted.  (When the "ttl" field is
missing or not a json.Number, the unchecked type assertion panics.) -/
theorem claim_C3_amended (maxTokenTTL : Int) (env : TickEnv) (rest : List TickEnv)
    (tokenData : List (String × GoValue)) (s : String)
    (hl : env.lookupResult = .ok tokenData)
    (ht : lookupGo tokenData "ttl" = .jsonNum s) :
    (getTokenTTL tokenData).isSome = true ∧
      (∀ t, parseInt64 s = some t → getTokenTTL tokenData = some (t, none)) ∧
      (parseInt64 s = none →
        getTokenTTL tokenData = some (-1, some .ttlDecodeError) ∧
          supervisorRun maxTokenTTL (env :: rest) = [.exitTTLDecodeFailure] ∧
          runOps maxTokenTTL (env :: rest) = [.lookup, .ttlCheck]) := by
  refine ⟨?_, fun t hp => ?_, fun hp => ?_⟩
  · cases hp : parseInt64 s <;> simp [getTokenTTL, ht, hp]
  · simp [getTokenTTL, ht, hp]
  · have hg : getTokenTTL tokenData = some (-1, some .ttlDecodeError) := by
      simp [getTokenTTL, ht, hp]
    have htick : supervisorTick maxTokenTTL env = .exitTTLDecodeFailure := by
      simp [supervisorTick, hl, hg]
    refine ⟨hg, ?_, ?_⟩
    · simp [supervisorRun, htick, continuesAfter]
    · simp [runOps, htick, continuesAfter, tickOps, hl, hg]

/-- Witness for the amended claim C3 on a token whose "ttl" field holds
the unparsable json.Number "soon". -/
theorem claim_C3_witness :
    (getTokenTTL [("ttl", GoValue.jsonNum "soon")]).isSome = true ∧
      (∀ t, parseInt64 "soon" = some t →
        getTokenTTL [("ttl", GoValue.jsonNum "soon")] = some (t, none)) ∧
      (parseInt64 "soon" = none →
        getTokenTTL [("ttl", GoValue.jsonNum "soon")] =
            some (-1, some .ttlDecodeError) ∧
          supervisorRun 300 (envBadTTL :: []) = [.exitTTLDecodeFailure] ∧
          runOps 300 (envBadTTL :: []) = [.lookup, .ttlCheck]) :=
  claim_C3_amended 300 envBadTTL [] [("ttl", GoValue.jsonNum "soon")] "soon" rfl rfl

/-- Counterexample to claim C10: ReadSecret is not total on its success
path.  The Go code converts the payload value with an unchecked
`.(string)` type assertion, so a payload holding a non-string value at
the requested key (here a non-string dynamic type at key "count") makes
the conversion panic (modelled by the result `none`) rather than
returning a value. -/
theorem claim_C10_counterexample :
    ReadSecret "secret/data/app" "count"
        (.secret (some [("count", GoValue.other)]) []) = none ∧
      ¬ ∀ (path key : String) (pd : List (String × GoValue)) (w : List String),
          lookupGo pd (effKey key) ≠ .vnil →
          (ReadSecret path key (.secret (some pd) w)).isSome = true := by
  refine ⟨rfl, fun h => ?_⟩
  have := h "secret/data/app" "count" [("count", GoValue.other)] [] (by decide)
  simp [ReadSecret, effKey, lookupGo] at this

/-- Claim C10 as amended: on a non-nil response whose extracted payload
holds a non-nil value at the effective key, ReadSecret returns without
crashing exactly when that value is a string (returning it with a nil
error); a non-string value makes the `.(string)` type assertion panic. -/
theorem claim_C10_amended (path key : String) (pd : List (String × GoValue))
    (w : List String) :
    (∀ s, lookupGo pd (effKey key) = .str s →
        ReadSecret path key (.secret (some pd) w) = some (s, none)) ∧
      (∀ s, lookupGo pd (effKey key) = .jsonNum s →
        ReadSecret path key (.secret (some pd) w) = none) ∧
      (lookupGo pd (effKey key) = .other →
        ReadSecret path key (.secret (some pd) w) = none) := by
  refine ⟨fun s hs => ?_, fun s hs => ?_, fun hs => ?_⟩ <;> simp [ReadSecret, hs]

/-- Witness for the amended claim C10: a string value is returned, and a
non-string value at the same key panics. -/
theorem claim_C10_witness :
    ReadSecret "secret/data/app" "user"
        (.secret (some [("user", GoValue.str "alice")]) []) = some ("alice", none) ∧
      ReadSecret "secret/data/app" "user"
        (.secret (some [("user", GoValue.other)]) []) = none :=
  ⟨(claim_C10_amended "secret/data/app" "user" [("user", GoValue.str "alice")] []).1
      "alice" rfl,
    (claim_C10_amended "secret/data/app" "user" [("user", GoValue.other)] []).2.2 rfl⟩

end SecretsManager
